import Mathlib

/-!
Shallow embedding of the call-transfer orchestration logic of
`src/server/bot.py` (daily-co/pipecat-cloud-simple-chatbot).

The embedding models, directly from the source:
  * `CallFlowState` with its four transition methods (bot.py lines 138-165);
  * the `should_speak` speak-gate predicate (lines 474-479);
  * `TranscriptionModifierProcessor.process_frame` (lines 180-198);
  * `SummaryFinished.process_frame` (lines 209-219);
  * `SessionManager` with `set_session_id` / `get_session_id` /
    `reset_participant` (lines 48-135);
  * the retry closure state of `bot()` (`retry_count`, `dialout_successful`,
    `messages`, lines 304-328) together with the event handlers
    `attempt_operator_dialout`, `dial_operator`, `on_dialout_answered`,
    `on_dialout_error` and `on_participant_left` (lines 310-591).

External effects (issuing a dial request via `transport.start_dialout`,
`transport.capture_participant_transcription`, `task.queue_frames`,
`task.cancel`) are recorded in the state as counters / request lists, so
that claims about observable actions become statements about those fields.
Python truthiness of session-id values (where the source tests the value
itself rather than comparing with `None`) is modelled explicitly.
-/

namespace Bot

/-- A role-tagged entry of the conversation message log (`messages` in `bot.py`).
Entries are appended as dicts `\x7b"role": ..., "content": ...\x7d` in the source. -/
structure Message where
  role : String
  content : String
deriving DecidableEq

/-- `CallFlowState` (bot.py lines 138-146): three booleans, all false at creation. -/
structure CallFlowState where
  dialed_operator : Bool
  operator_connected : Bool
  summary_finished : Bool
deriving DecidableEq

/-- `CallFlowState.__init__`: all flags start false. -/
def CallFlowState.init : CallFlowState :=
  { dialed_operator := false, operator_connected := false, summary_finished := false }

/-- `CallFlowState.set_operator_dialed` (lines 148-150). -/
def CallFlowState.set_operator_dialed (s : CallFlowState) : CallFlowState :=
  { s with dialed_operator := true }

/-- `CallFlowState.set_operator_connected` (lines 152-156): also forces
`summary_finished` back to false. -/
def CallFlowState.set_operator_connected (s : CallFlowState) : CallFlowState :=
  { s with operator_connected := true, summary_finished := false }

/-- `CallFlowState.set_operator_disconnected` (lines 158-161). -/
def CallFlowState.set_operator_disconnected (s : CallFlowState) : CallFlowState :=
  { s with operator_connected := false, summary_finished := false }

/-- `CallFlowState.set_summary_finished` (lines 163-165): sets the flag
unconditionally. -/
def CallFlowState.set_summary_finished (s : CallFlowState) : CallFlowState :=
  { s with summary_finished := true }

/-- The `should_speak` closure (lines 474-479):
`not call_flow_state.operator_connected or not call_flow_state.summary_finished`. -/
def should_speak (s : CallFlowState) : Bool :=
  !s.operator_connected || !s.summary_finished

/-- Frame direction of the pipeline framework; the modifier only acts on
`DOWNSTREAM` frames. -/
inductive FrameDirection
  | downstream
  | upstream
deriving DecidableEq

/-- A `TranscriptionFrame`: carries the speaker id (`user_id`) and the text.
Every `TranscriptionFrame` has a `user_id` attribute, so the source's
`hasattr(frame, "user_id")` test is always true on this frame kind. -/
structure TranscriptionFrame where
  user_id : String
  text : String
deriving DecidableEq

/-- The frame kinds the modelled processors distinguish: transcription frames,
`BotStoppedSpeakingFrame`, and everything else (passed through untouched). -/
inductive Frame
  | transcription (f : TranscriptionFrame)
  | botStoppedSpeaking
  | other
deriving DecidableEq

/-- `TranscriptionModifierProcessor.process_frame` (lines 180-198): on a
downstream `TranscriptionFrame` whose `user_id` equals the operator session id
held in the reference cell (and the cell `is not None`), the text becomes
`"[OPERATOR]: " + text`; every other frame or direction passes unmodified. -/
def transcription_modifier_process (operator_session_id_ref : Option String)
    (frame : Frame) (direction : FrameDirection) : Frame :=
  if direction = FrameDirection.downstream then
    match frame with
    | Frame.transcription f =>
        match operator_session_id_ref with
        | some opId =>
            if f.user_id == opId then
              Frame.transcription { f with text := "[OPERATOR]: " ++ f.text }
            else Frame.transcription f
        | none => Frame.transcription f
    | fr => fr
  else frame

/-- `SummaryFinished.process_frame` (lines 209-219): when the operator is
connected and the frame is a `BotStoppedSpeakingFrame`, call
`set_summary_finished`; otherwise the shared state is untouched. -/
def summary_finished_process (st : CallFlowState) (frame : Frame) : CallFlowState :=
  if st.operator_connected && frame == Frame.botStoppedSpeaking then
    st.set_summary_finished
  else st

/-- The fixed-key dictionaries of `SessionManager` (`session_ids` and the
cells `session_id_refs[t][0]`), keyed by `"operator"`, `"customer"`, `"bot"`. -/
structure SessionDict where
  operator : Option String
  customer : Option String
  bot : Option String
deriving DecidableEq

/-- Both dictionaries start with value `None` for each key (lines 51-66). -/
def SessionDict.init : SessionDict := { operator := none, customer := none, bot := none }

/-- Membership test `participant_type in self.session_ids` (same keys in both
dictionaries, and the key set never changes). -/
def SessionDict.hasKey (t : String) : Bool :=
  t == "operator" || t == "customer" || t == "bot"

/-- Dictionary lookup `d.get(t)`: `None` for an absent key. -/
def SessionDict.get (d : SessionDict) (t : String) : Option String :=
  if t == "operator" then d.operator
  else if t == "customer" then d.customer
  else if t == "bot" then d.bot
  else none

/-- Dictionary value update `d[t] = v` for a present key; no-op otherwise. -/
def SessionDict.setVal (d : SessionDict) (t : String) (v : Option String) : SessionDict :=
  if t == "operator" then { d with operator := v }
  else if t == "customer" then { d with customer := v }
  else if t == "bot" then { d with bot := v }
  else d

/-- `SessionManager` (lines 48-135): the two dictionaries and the shared
`CallFlowState` (the same object the `bot()` closures read). -/
structure SessionManager where
  session_ids : SessionDict
  session_id_refs : SessionDict
  call_flow_state : CallFlowState
deriving DecidableEq

/-- A fresh `SessionManager` over a fresh `CallFlowState`. -/
def SessionManager.init : SessionManager :=
  { session_ids := SessionDict.init, session_id_refs := SessionDict.init,
    call_flow_state := CallFlowState.init }

/-- `SessionManager.set_session_id` (lines 73-85): update `session_ids[t]`,
and also the reference cell `session_id_refs[t][0]`, when the key exists. -/
def SessionManager.set_session_id (m : SessionManager) (t : String) (sid : String) :
    SessionManager :=
  if SessionDict.hasKey t then
    let m1 := { m with session_ids := m.session_ids.setVal t (some sid) }
    if SessionDict.hasKey t then
      { m1 with session_id_refs := m1.session_id_refs.setVal t (some sid) }
    else m1
  else m

/-- `SessionManager.get_session_id` (lines 87-96). -/
def SessionManager.get_session_id (m : SessionManager) (t : String) : Option String :=
  m.session_ids.get t

/-- `SessionManager.reset_participant` (lines 121-135): clear both the entry
and the reference cell, and for `"operator"` additionally run the
`set_operator_disconnected` transition on the shared `CallFlowState`. -/
def SessionManager.reset_participant (m : SessionManager) (t : String) : SessionManager :=
  if SessionDict.hasKey t then
    let m1 := { m with session_ids := m.session_ids.setVal t none }
    let m2 :=
      if SessionDict.hasKey t then
        { m1 with session_id_refs := m1.session_id_refs.setVal t none }
      else m1
    if t == "operator" then
      { m2 with call_flow_state := m2.call_flow_state.set_operator_disconnected }
    else m2
  else m

/-- `max_retries = 5` (bot.py line 305). -/
def max_retries : Nat := 5

/-- Content of the retry-exhaustion notice appended by
`attempt_operator_dialout` (line 325). -/
def dialout_failed_content : String :=
  "I\x27m sorry, but I\x27m unable to connect you with a supervisor at this time. Please try again later or contact us through other means."

/-- Content appended by `dial_operator` when an operator number is configured
(line 398). -/
def specialist_requested_content : String :=
  "The user has requested a specialist, indicate that you will attempt to connect them with a specialist."

/-- Content appended by `dial_operator` when no operator number is configured
(line 416). -/
def no_dialout_settings_content : String :=
  "Indicate that there are no operator dialout settings available."

/-- Content appended by `on_dialout_answered` when a new operator connects
(lines 533-534). -/
def operator_joining_content : String :=
  "An operator is joining the call.\n                    Give a brief summary of the customer\x27s issues so far."

/-- Content appended by `on_participant_left` when the operator leaves
(lines 583-585); the braces around `customer_info` are literal in the source. -/
def operator_left_content : String :=
  "The operator has left the call.\n                Resume your role as the primary support agent and use information from the operator\x27s conversation to help the customer\x7bcustomer_info\x7d.\n                Let the customer know the operator has left and ask if they need further assistance."

/-- The mutable state the `bot()` closures share, together with recorders for
the external effects: `dial_requests` counts `transport.start_dialout` calls,
`capture_requests` records `transport.capture_participant_transcription`
calls, `queued_frames` counts `task.queue_frames` calls, and `cancel_count`
counts `task.cancel` calls. `operator_number` is the `OPERATOR_NUMBER`
configuration read at startup (line 270). -/
structure BotState where
  retry_count : Nat
  dialout_successful : Bool
  session_manager : SessionManager
  messages : List Message
  operator_number : Option String
  dial_requests : Nat
  capture_requests : List String
  queued_frames : Nat
  cancel_count : Nat
deriving DecidableEq

/-- The state of `bot()` right after setup (lines 304-308 and 265-267):
zero retries, not successful, fresh session manager, and the initial message
log `ms` (in the source, the single telemarketer system prompt; none of the
modelled behaviour depends on its content, so it is a parameter). -/
def BotState.mk0 (operator_number : Option String) (ms : List Message) : BotState :=
  { retry_count := 0, dialout_successful := false,
    session_manager := SessionManager.init, messages := ms,
    operator_number := operator_number, dial_requests := 0,
    capture_requests := [], queued_frames := 0, cancel_count := 0 }

/-- `attempt_operator_dialout` (lines 310-328): when `retry_count < max_retries`
and the dialout has not succeeded, increment `retry_count` and issue one dial
request; otherwise append the user-facing failure notice to `messages` and
queue an `LLMMessagesFrame`. -/
def attempt_operator_dialout (s : BotState) : BotState :=
  if s.retry_count < max_retries && !s.dialout_successful then
    { s with retry_count := s.retry_count + 1,
             dial_requests := s.dial_requests + 1 }
  else
    { s with messages := s.messages ++ [Message.mk "system" dialout_failed_content],
             queued_frames := s.queued_frames + 1 }

/-- `dial_operator` (lines 389-425): with an operator number configured, mark
the operator dialed, append the specialist message, queue a context frame and
attempt the dialout; otherwise only append the unavailability message. -/
def dial_operator (s : BotState) : BotState :=
  match s.operator_number with
  | some _ =>
      let s1 := { s with session_manager := { s.session_manager with
                    call_flow_state :=
                      s.session_manager.call_flow_state.set_operator_dialed } }
      let s2 := { s1 with
                    messages := s1.messages ++
                      [Message.mk "system" specialist_requested_content],
                    queued_frames := s1.queued_frames + 1 }
      attempt_operator_dialout s2
  | none =>
      { s with messages := s.messages ++
                 [Message.mk "system" no_dialout_settings_content],
               queued_frames := s.queued_frames + 1 }

/-- `on_dialout_answered` (lines 510-540): first capture the answering
session's transcription and set `dialout_successful = True`; then, unless the
operator is already connected (the `not call_flow_state` disjunct is always
false, since the object exists), store the operator session id, run the
`set_operator_connected` transition, append the summarization instruction and
queue a context frame. -/
def on_dialout_answered (s : BotState) (sessionId : String) : BotState :=
  let s1 := { s with capture_requests := s.capture_requests ++ [sessionId],
                     dialout_successful := true }
  if s1.session_manager.call_flow_state.operator_connected then s1
  else
    let s2 := { s1 with session_manager :=
                  s1.session_manager.set_session_id "operator" sessionId }
    let s3 := { s2 with session_manager := { s2.session_manager with
                  call_flow_state :=
                    s2.session_manager.call_flow_state.set_operator_connected } }
    { s3 with messages := s3.messages ++ [Message.mk "system" operator_joining_content],
              queued_frames := s3.queued_frames + 1 }

/-- `on_dialout_error` (lines 546-556): retry while `retry_count < max_retries`;
once exhausted, only log (no state change, no message). -/
def on_dialout_error (s : BotState) : BotState :=
  if s.retry_count < max_retries then attempt_operator_dialout s else s

/-- `on_participant_left` (lines 565-591). The guard is the Python test
`not (session_manager.get_session_id("operator") and participant["id"] ==
session_manager.get_session_id("operator"))`: the stored id is used as a
truth value, so `None` and the empty string both fail it. When the guard
holds the task is cancelled; otherwise the operator is reset (cascading to
`set_operator_disconnected`), the resume message is appended and a context
frame is queued. -/
def on_participant_left (s : BotState) (participant_id : String) : BotState :=
  match s.session_manager.get_session_id "operator" with
  | some v =>
      if v != "" && participant_id == v then
        let s1 := { s with session_manager :=
                      s.session_manager.reset_participant "operator" }
        { s1 with messages := s1.messages ++ [Message.mk "system" operator_left_content],
                  queued_frames := s1.queued_frames + 1 }
      else
        { s with cancel_count := s.cancel_count + 1 }
  | none =>
      { s with cancel_count := s.cancel_count + 1 }

/-- The lifecycle events relevant to the modelled handlers. -/
inductive Ev
  | dialOperator
  | dialoutAnswered (sessionId : String)
  | dialoutError
  | participantLeft (participant_id : String)
deriving DecidableEq

/-- Dispatch of one event to its handler. -/
def step (s : BotState) (e : Ev) : BotState :=
  match e with
  | Ev.dialOperator => dial_operator s
  | Ev.dialoutAnswered sid => on_dialout_answered s sid
  | Ev.dialoutError => on_dialout_error s
  | Ev.participantLeft pid => on_participant_left s pid

/-- Handle a sequence of events in arrival order (the cooperative event loop
handles one event at a time). -/
def run (s : BotState) (es : List Ev) : BotState := es.foldl step s

/-- The three `CallFlowState` transitions of claim C2, as events. -/
inductive CFEv
  | dialOperator
  | operatorConnected
  | operatorDisconnected
deriving DecidableEq

/-- Apply one transition method. -/
def cfStep (s : CallFlowState) (e : CFEv) : CallFlowState :=
  match e with
  | CFEv.dialOperator => s.set_operator_dialed
  | CFEv.operatorConnected => s.set_operator_connected
  | CFEv.operatorDisconnected => s.set_operator_disconnected

/-- Apply a sequence of transition methods in order. -/
def cfRun (s : CallFlowState) (es : List CFEv) : CallFlowState := es.foldl cfStep s

/-- The two `SessionManager` mutators of claim C10, as operations. -/
inductive SMOp
  | setId (t : String) (sid : String)
  | resetP (t : String)
deriving DecidableEq

/-- Apply one `SessionManager` operation. -/
def smStep (m : SessionManager) (op : SMOp) : SessionManager :=
  match op with
  | SMOp.setId t sid => m.set_session_id t sid
  | SMOp.resetP t => m.reset_participant t

/-- Apply a sequence of `SessionManager` operations in order. -/
def smRun (m : SessionManager) (ops : List SMOp) : SessionManager := ops.foldl smStep m

lemma set_session_id_ids_eq_refs {m : SessionManager}
    (h : m.session_ids = m.session_id_refs) (t sid : String) :
    (m.set_session_id t sid).session_ids = (m.set_session_id t sid).session_id_refs := by
  by_cases hk : SessionDict.hasKey t = true <;>
    simp [SessionManager.set_session_id, hk, h]

lemma reset_participant_ids_eq_refs {m : SessionManager}
    (h : m.session_ids = m.session_id_refs) (t : String) :
    (m.reset_participant t).session_ids = (m.reset_participant t).session_id_refs := by
  by_cases hk : SessionDict.hasKey t = true <;>
    by_cases ho : (t == "operator") = true <;>
      simp [SessionManager.reset_participant, hk, ho, h]

lemma smStep_ids_eq_refs {m : SessionManager}
    (h : m.session_ids = m.session_id_refs) (op : SMOp) :
    (smStep m op).session_ids = (smStep m op).session_id_refs := by
  cases op with
  | setId t sid => exact set_session_id_ids_eq_refs h t sid
  | resetP t => exact reset_participant_ids_eq_refs h t

lemma smRun_ids_eq_refs (ops : List SMOp) :
    ∀ m : SessionManager, m.session_ids = m.session_id_refs →
      (smRun m ops).session_ids = (smRun m ops).session_id_refs := by
  induction ops with
  | nil => intro m h; exact h
  | cons op rest ih =>
      intro m h
      simpa [smRun, List.foldl] using ih (smStep m op) (smStep_ids_eq_refs h op)

/-- Invariant of the retry logic: the number of dial requests issued so far is
bounded by the retry counter, which never exceeds `max_retries`. -/
def DialInv (s : BotState) : Prop :=
  s.dial_requests ≤ s.retry_count ∧ s.retry_count ≤ max_retries

lemma attempt_DialInv {s : BotState} (h : DialInv s) :
    DialInv (attempt_operator_dialout s) := by
  obtain ⟨h1, h2⟩ := h
  unfold attempt_operator_dialout
  split
  · rename_i hc
    simp only [Bool.and_eq_true, decide_eq_true_eq, Bool.not_eq_true'] at hc
    exact ⟨Nat.succ_le_succ h1, hc.1⟩
  · exact ⟨h1, h2⟩

lemma step_DialInv {s : BotState} (h : DialInv s) (e : Ev) : DialInv (step s e) := by
  obtain ⟨h1, h2⟩ := h
  cases e with
  | dialOperator =>
      show DialInv (dial_operator s)
      unfold dial_operator
      cases s.operator_number with
      | some n => exact attempt_DialInv ⟨h1, h2⟩
      | none => exact ⟨h1, h2⟩
  | dialoutAnswered sid =>
      show DialInv (on_dialout_answered s sid)
      unfold on_dialout_answered
      dsimp only
      split
      · exact ⟨h1, h2⟩
      · exact ⟨h1, h2⟩
  | dialoutError =>
      show DialInv (on_dialout_error s)
      unfold on_dialout_error
      split
      · exact attempt_DialInv ⟨h1, h2⟩
      · exact ⟨h1, h2⟩
  | participantLeft pid =>
      show DialInv (on_participant_left s pid)
      unfold on_participant_left
      cases s.session_manager.get_session_id "operator" with
      | some v =>
          simp only []
          split
          · exact ⟨h1, h2⟩
          · exact ⟨h1, h2⟩
      | none => exact ⟨h1, h2⟩

lemma run_DialInv (es : List Ev) :
    ∀ s : BotState, DialInv s → DialInv (run s es) := by
  induction es with
  | nil => intro s h; exact h
  | cons e rest ih =>
      intro s h
      simpa [run, List.foldl] using ih (step s e) (step_DialInv h e)

lemma attempt_after_success {s : BotState} (h : s.dialout_successful = true) :
    (attempt_operator_dialout s).dial_requests = s.dial_requests ∧
    (attempt_operator_dialout s).dialout_successful = true ∧
    (attempt_operator_dialout s).retry_count = s.retry_count := by
  unfold attempt_operator_dialout
  rw [h]
  simp

lemma step_after_success {s : BotState} (h : s.dialout_successful = true) (e : Ev) :
    (step s e).dial_requests = s.dial_requests ∧ (step s e).dialout_successful = true := by
  cases e with
  | dialOperator =>
      simp only [step]
      unfold dial_operator
      cases s.operator_number with
      | some n => simp [attempt_operator_dialout, h]
      | none => simp [h]
  | dialoutAnswered sid =>
      simp only [step]
      unfold on_dialout_answered
      dsimp only
      split <;> simp [h]
  | dialoutError =>
      simp only [step]
      unfold on_dialout_error
      split
      · simp [attempt_operator_dialout, h]
      · simp [h]
  | participantLeft pid =>
      simp only [step]
      unfold on_participant_left
      cases s.session_manager.get_session_id "operator" with
      | some v =>
          dsimp only
          split <;> simp [h]
      | none => simp [h]

lemma run_after_success (es : List Ev) :
    ∀ s : BotState, s.dialout_successful = true →
      (run s es).dial_requests = s.dial_requests ∧
      (run s es).dialout_successful = true := by
  induction es with
  | nil => intro s h; exact ⟨rfl, h⟩
  | cons e rest ih =>
      intro s h
      have hs := step_after_success h e
      have := ih (step s e) hs.2
      constructor
      · calc (run s (e :: rest)).dial_requests
            = (run (step s e) rest).dial_requests := by simp [run, List.foldl]
          _ = (step s e).dial_requests := this.1
          _ = s.dial_requests := hs.1
      · simpa [run, List.foldl] using this.2

/-- A reachable state in which the operator has connected: a `dial_operator`
request, then the dialout is answered with session id "op1". -/
def connectedState : BotState :=
  run (BotState.mk0 (some "+15551234") []) [Ev.dialOperator, Ev.dialoutAnswered "op1"]

/-- A reachable state in which the stored operator session id is the empty
string (the answering session reported an empty id). -/
def emptyIdState : BotState :=
  run (BotState.mk0 (some "+15551234") []) [Ev.dialOperator, Ev.dialoutAnswered ""]

/-- The reachable state after a `dial_operator` request followed by
`max_retries` consecutive dialout-error events. -/
def exhaustedState : BotState :=
  run (BotState.mk0 (some "+15551234") [])
    (Ev.dialOperator :: List.replicate max_retries Ev.dialoutError)

/-- Claim C2: for every sequence of `dial_operator`, `operator_connected` and
`operator_disconnected` transition calls on a `CallFlowState`, the
`summary_finished` flag is false immediately after any `operator_connected`
call and immediately after any `operator_disconnected` call. -/
theorem C2_summary_finished_false_after_connect_disconnect :
    ∀ (es : List CFEv) (e : CFEv),
      e = CFEv.operatorConnected ∨ e = CFEv.operatorDisconnected →
      (cfStep (cfRun CallFlowState.init es) e).summary_finished = false := by
  intro es e he
  rcases he with h | h <;> subst h <;> rfl

/-- Witness for C2: after dialing and connecting, the flag is false. -/
theorem C2_witness :
    (cfStep (cfRun CallFlowState.init [CFEv.dialOperator])
        CFEv.operatorConnected).summary_finished = false :=
  C2_summary_finished_false_after_connect_disconnect [CFEv.dialOperator]
    CFEv.operatorConnected (Or.inl rfl)

/-- Claim C5: the speak gate equals (not operator_connected) or
(not summary_finished); it is true whenever the operator is not connected,
true when connected but the summary is unfinished, and false exactly when
both flags are true. -/
theorem C5_should_speak_truth_table :
    ∀ s : CallFlowState,
      should_speak s = (!s.operator_connected || !s.summary_finished) ∧
      (s.operator_connected = false → should_speak s = true) ∧
      (s.operator_connected = true → s.summary_finished = false → should_speak s = true) ∧
      (should_speak s = false ↔ s.operator_connected = true ∧ s.summary_finished = true) := by
  intro s
  rcases s with ⟨d, oc, sf⟩
  cases d <;> cases oc <;> cases sf <;> decide

/-- Witness for C5: the gate is open while the summary is being delivered. -/
theorem C5_witness :
    should_speak { dialed_operator := true, operator_connected := true,
                   summary_finished := false } = true :=
  (C5_should_speak_truth_table
      { dialed_operator := true, operator_connected := true,
        summary_finished := false }).2.2.1 rfl rfl

/-- Claim C7: a downstream transcription frame is prefixed with the operator
marker iff the operator reference cell holds exactly the frame's speaker id;
any other downstream frame, and every upstream frame, passes unmodified. -/
theorem C7_transcript_attribution :
    ∀ (r : Option String) (f : TranscriptionFrame) (fr : Frame),
      transcription_modifier_process r fr FrameDirection.upstream = fr ∧
      (transcription_modifier_process r (Frame.transcription f) FrameDirection.downstream =
        if r = some f.user_id then
          Frame.transcription { f with text := "[OPERATOR]: " ++ f.text }
        else Frame.transcription f) ∧
      transcription_modifier_process r Frame.botStoppedSpeaking FrameDirection.downstream =
        Frame.botStoppedSpeaking ∧
      transcription_modifier_process r Frame.other FrameDirection.downstream = Frame.other := by
  intro r f fr
  refine ⟨rfl, ?_, rfl, rfl⟩
  cases r with
  | none => simp [transcription_modifier_process]
  | some opId =>
      by_cases h : f.user_id = opId
      · simp [transcription_modifier_process, h]
      · simp [transcription_modifier_process, h, Ne.symm h]

/-- Claim C9 counterexample: calling `set_summary_finished` on the initial
state (operator not connected) is not a no-op: it changes the state, setting
the flag while the operator is disconnected. -/
theorem C9_counterexample :
    CallFlowState.init.operator_connected = false ∧
    CallFlowState.set_summary_finished CallFlowState.init ≠ CallFlowState.init ∧
    (CallFlowState.set_summary_finished CallFlowState.init).summary_finished = true := by
  refine ⟨rfl, ?_, rfl⟩
  decide

/-- Claim C9 as amended: `set_summary_finished` sets the flag unconditionally,
but the `SummaryFinished` processor invokes it only while the operator is
connected, so processing any frame with the operator disconnected leaves the
`CallFlowState` unchanged. -/
theorem C9_amended_processor_guard :
    ∀ (s : CallFlowState) (fr : Frame),
      (s.operator_connected = false → summary_finished_process s fr = s) ∧
      (CallFlowState.set_summary_finished s).summary_finished = true := by
  intro s fr
  refine ⟨?_, rfl⟩
  intro h
  unfold summary_finished_process
  rw [h]
  simp

/-- Witness for C9: a bot-stopped-speaking frame with no operator connected
leaves the state untouched. -/
theorem C9_witness :
    summary_finished_process CallFlowState.init Frame.botStoppedSpeaking =
      CallFlowState.init :=
  (C9_amended_processor_guard CallFlowState.init Frame.botStoppedSpeaking).1 rfl

/-- Claim C10: after any sequence of `set_session_id` / `reset_participant`
operations, the value `get_session_id` reads from `session_ids[t]` equals the
value held in the reference cell `session_id_refs[t][0]` for every participant
type, so the transcript attributor (which reads the cell) sees exactly what
`get_session_id` returns. -/
theorem C10_session_ids_match_refs :
    ∀ (ops : List SMOp) (t : String),
      (smRun SessionManager.init ops).get_session_id t =
        ((smRun SessionManager.init ops).session_id_refs).get t := by
  intro ops t
  have h := smRun_ids_eq_refs ops SessionManager.init rfl
  unfold SessionManager.get_session_id
  rw [h]

/-- Claim C1 counterexample: after a `dial_operator` request followed by
`max_retries` consecutive dialout-error events, the final error event arrives
with no retries remaining, yet the message log still holds only the
specialist message (no user-facing failure notice was appended), and a
further error event is a complete no-op. -/
theorem C1_counterexample :
    exhaustedState.retry_count = max_retries ∧
    exhaustedState.messages = [Message.mk "system" specialist_requested_content] ∧
    on_dialout_error exhaustedState = exhaustedState := by
  exact ⟨rfl, rfl, rfl⟩

/-- Claim C1 as amended: when a dialout-error event arrives with no retries
remaining, the handler stops retrying but appends nothing (it only logs); the
user-facing failure notice is appended only when `attempt_operator_dialout`
itself is invoked after exhaustion (for example by a renewed `dial_operator`
request), and such a call issues no dial request while making the failure
notice the final entry of the message log. -/
theorem C1_amended_exhausted_error :
    ∀ s : BotState, max_retries ≤ s.retry_count →
      on_dialout_error s = s ∧
      (attempt_operator_dialout s).messages =
        s.messages ++ [Message.mk "system" dialout_failed_content] ∧
      (attempt_operator_dialout s).dial_requests = s.dial_requests := by
  intro s h
  have hlt : ¬ s.retry_count < max_retries := Nat.not_lt.mpr h
  refine ⟨?_, ?_⟩
  · unfold on_dialout_error
    exact if_neg hlt
  · unfold attempt_operator_dialout
    split
    · rename_i hc
      simp only [Bool.and_eq_true, decide_eq_true_eq] at hc
      exact absurd hc.1 hlt
    · exact ⟨rfl, rfl⟩

/-- Witness for C1 at the reachable exhausted state. -/
theorem C1_witness :
    on_dialout_error exhaustedState = exhaustedState ∧
    (attempt_operator_dialout exhaustedState).messages =
      exhaustedState.messages ++ [Message.mk "system" dialout_failed_content] :=
  ⟨(C1_amended_exhausted_error exhaustedState (by decide)).1,
   (C1_amended_exhausted_error exhaustedState (by decide)).2.1⟩

/-- Claim C3: `attempt_operator_dialout` issues no dial request once the
dialout has succeeded or the retry counter has reached `max_retries`, the
counter never exceeds `max_retries`, and along every event trace from the
initial state at most `max_retries` dial requests are ever issued. -/
theorem C3_attempt_bound :
    ∀ (s : BotState) (num : Option String) (ms : List Message) (es : List Ev),
      (s.dialout_successful = true ∨ max_retries ≤ s.retry_count →
        (attempt_operator_dialout s).dial_requests = s.dial_requests ∧
        (attempt_operator_dialout s).retry_count = s.retry_count) ∧
      (s.retry_count ≤ max_retries →
        (attempt_operator_dialout s).retry_count ≤ max_retries) ∧
      (run (BotState.mk0 num ms) es).dial_requests ≤ max_retries ∧
      (run (BotState.mk0 num ms) es).retry_count ≤ max_retries := by
  intro s num ms es
  have hrun := run_DialInv es (BotState.mk0 num ms) ⟨Nat.le_refl 0, Nat.zero_le _⟩
  refine ⟨?_, ?_, le_trans hrun.1 hrun.2, hrun.2⟩
  · intro h
    unfold attempt_operator_dialout
    split
    · rename_i hc
      simp only [Bool.and_eq_true, decide_eq_true_eq, Bool.not_eq_true'] at hc
      rcases h with h | h
      · simp [h] at hc
      · exact absurd hc.1 (Nat.not_lt.mpr h)
    · exact ⟨rfl, rfl⟩
  · intro h
    unfold attempt_operator_dialout
    split
    · rename_i hc
      simp only [Bool.and_eq_true, decide_eq_true_eq] at hc
      exact hc.1
    · exact h

/-- Witness for C3: a state at the retry bound issues no further dial, and the
exhaustion trace never exceeds `max_retries` dial requests. -/
theorem C3_witness :
    (attempt_operator_dialout exhaustedState).dial_requests =
      exhaustedState.dial_requests ∧
    (run (BotState.mk0 (some "+15551234") [])
        (Ev.dialOperator :: List.replicate max_retries Ev.dialoutError)).dial_requests ≤
      max_retries :=
  ⟨((C3_attempt_bound exhaustedState (some "+15551234") []
        (Ev.dialOperator :: List.replicate max_retries Ev.dialoutError)).1
      (Or.inr (by decide))).1,
   (C3_attempt_bound exhaustedState (some "+15551234") []
        (Ev.dialOperator :: List.replicate max_retries Ev.dialoutError)).2.2.1⟩

/-- Claim C4 counterexample: in the reachable state where the dialout already
succeeded (operator answered) and retries remain, a late dialout-error event
is not ignored: the handler re-enters the attempt, which appends the
user-facing failure notice and queues a context frame - an observable action. -/
theorem C4_counterexample :
    connectedState.dialout_successful = true ∧
    connectedState.retry_count < max_retries ∧
    (on_dialout_error connectedState).messages =
      connectedState.messages ++ [Message.mk "system" dialout_failed_content] ∧
    (on_dialout_error connectedState).queued_frames = connectedState.queued_frames + 1 := by
  exact ⟨rfl, by decide, rfl, rfl⟩

/-- Claim C4 as amended: once the dialout is marked successful no subsequent
event ever issues another dial request (success is sticky), but an error
event arriving after success with retries remaining is not silently ignored:
it re-invokes the attempt, which issues no dial yet appends the user-facing
failure notice. -/
theorem C4_amended_success_sticky :
    ∀ (s : BotState) (es : List Ev),
      s.dialout_successful = true →
      (run s es).dial_requests = s.dial_requests ∧
      (s.retry_count < max_retries →
        (on_dialout_error s).messages =
          s.messages ++ [Message.mk "system" dialout_failed_content] ∧
        (on_dialout_error s).dial_requests = s.dial_requests) := by
  intro s es h
  refine ⟨(run_after_success es s h).1, ?_⟩
  intro hr
  unfold on_dialout_error
  rw [if_pos hr]
  unfold attempt_operator_dialout
  split
  · rename_i hc
    simp only [Bool.and_eq_true, decide_eq_true_eq, Bool.not_eq_true'] at hc
    exact absurd h (by simp [hc.2])
  · exact ⟨rfl, rfl⟩

/-- Witness for C4 at the reachable connected state. -/
theorem C4_witness :
    (run connectedState [Ev.dialoutError, Ev.dialoutError]).dial_requests =
      connectedState.dial_requests ∧
    (on_dialout_error connectedState).messages =
      connectedState.messages ++ [Message.mk "system" dialout_failed_content] :=
  ⟨(C4_amended_success_sticky connectedState [Ev.dialoutError, Ev.dialoutError] rfl).1,
   ((C4_amended_success_sticky connectedState [Ev.dialoutError, Ev.dialoutError] rfl).2
      (by decide)).1⟩

/-- Claim C6 counterexample: in the reachable state where the stored operator
session id is the empty string, a participant-left event whose id equals
that stored id terminates the call (cancel requested) instead of resetting
the operator role, because the handler tests the stored id for Python
truthiness rather than against `None`. -/
theorem C6_counterexample :
    emptyIdState.session_manager.get_session_id "operator" = some "" ∧
    (on_participant_left emptyIdState "").cancel_count = emptyIdState.cancel_count + 1 ∧
    (on_participant_left emptyIdState "").session_manager = emptyIdState.session_manager ∧
    (on_participant_left emptyIdState "").messages = emptyIdState.messages := by
  exact ⟨rfl, rfl, rfl, rfl⟩

/-- Claim C6 as amended: when a non-empty operator session id is stored and
the departing participant's id equals it, the operator role is reset
(cascading to `set_operator_disconnected`), the resume message is appended
and the call continues; in every other case - no operator stored, a stored
empty-string id (treated as no operator), or a different participant - the
call is terminated exactly once with no reset and no message append. -/
theorem C6_amended_participant_left :
    ∀ (s : BotState) (pid v : String),
      (s.session_manager.get_session_id "operator" = some v → v ≠ "" → pid = v →
        on_participant_left s pid =
          { s with
              session_manager := s.session_manager.reset_participant "operator",
              messages := s.messages ++ [Message.mk "system" operator_left_content],
              queued_frames := s.queued_frames + 1 }) ∧
      ((∀ w, s.session_manager.get_session_id "operator" = some w → w = "" ∨ pid ≠ w) →
        on_participant_left s pid = { s with cancel_count := s.cancel_count + 1 }) := by
  intro s pid v
  constructor
  · intro hop hv hpv
    subst hpv
    unfold on_participant_left
    rw [hop]
    simp [hv]
  · intro hall
    unfold on_participant_left
    cases hop : s.session_manager.get_session_id "operator" with
    | none => rfl
    | some w =>
        rcases hall w hop with hw | hpw
        · subst hw
          simp
        · simp [hpw]

/-- Witness for C6 at the reachable connected state: the operator leaving is
reset and announced, the call not cancelled. -/
theorem C6_witness :
    on_participant_left connectedState "op1" =
      { connectedState with
          session_manager := connectedState.session_manager.reset_participant "operator",
          messages := connectedState.messages ++ [Message.mk "system" operator_left_content],
          queued_frames := connectedState.queued_frames + 1 } :=
  (C6_amended_participant_left connectedState "op1" "op1").1 rfl (by decide) rfl

/-- Claim C8 counterexample: a duplicate dialout-answered event arriving while
the operator is already connected still triggers a transcript-capture request
for the answering session, so the event is not entirely without action. -/
theorem C8_counterexample :
    connectedState.session_manager.call_flow_state.operator_connected = true ∧
    (on_dialout_answered connectedState "op2").capture_requests =
      connectedState.capture_requests ++ ["op2"] := by
  exact ⟨rfl, rfl⟩

/-- Claim C8 as amended: a dialout-answered event arriving while the operator
is already connected leaves the session ids, the `CallFlowState`, and the
message log unchanged and queues nothing, but it does request transcript
capture for the answering session and (re)marks the dialout successful. -/
theorem C8_amended_duplicate_answer :
    ∀ (s : BotState) (sid : String),
      s.session_manager.call_flow_state.operator_connected = true →
      on_dialout_answered s sid =
        { s with capture_requests := s.capture_requests ++ [sid],
                 dialout_successful := true } := by
  intro s sid h
  unfold on_dialout_answered
  dsimp only
  rw [if_pos h]

/-- Witness for C8 at the reachable connected state. -/
theorem C8_witness :
    on_dialout_answered connectedState "op1" =
      { connectedState with
          capture_requests := connectedState.capture_requests ++ ["op1"],
          dialout_successful := true } :=
  C8_amended_duplicate_answer connectedState "op1" rfl

end Bot
